import Mathlib

/-!
Verification development for the Resume-Builder frontend core
(Cordxll/Resume-Builder).

The shallow embedding below follows the TypeScript sources:
- `frontend/src/types/index.ts` (data model),
- `frontend/src/App.tsx` (`handleToggleChange`, `handleExport`),
- `frontend/src/components/TailoredResumeView.tsx`
  (`handleSaveEdit`, `handleExport`, initial state).

The backend merge performed by the docx exporter is not among the sources;
it is modelled from the spec where needed and marked as such.
-/

namespace ResumeBuilder

/-- `contact` field of `ParsedResume` (types/index.ts). -/
structure Contact where
  name : Option String
  email : Option String
  phone : Option String
  linkedin : Option String
deriving DecidableEq, Repr

/-- `ResumeSection` (types/index.ts): free text plus optional bullets. -/
structure ResumeSection where
  content : String
  bullets : Option (List String)
deriving DecidableEq, Repr

/-- `ParsedResume` (types/index.ts): every field optional. -/
structure ParsedResume where
  contact : Option Contact
  summary : Option ResumeSection
  experience : Option ResumeSection
  education : Option ResumeSection
  skills : Option ResumeSection
  certifications : Option ResumeSection
  projects : Option ResumeSection
  raw_text : Option String
deriving DecidableEq, Repr

/-- The `{summary, experience, skills}` triple used for both `original` and
`tailored` in `TailoredData` (types/index.ts): summary and skills are strings,
experience is an ordered list of bullet strings. -/
structure SectionTriple where
  summary : String
  experience : List String
  skills : String
deriving DecidableEq, Repr

/-- The `changes` rationale lists of `TailoredData` (types/index.ts). -/
structure ChangeLists where
  summary : List String
  experience : List String
  skills : List String
deriving DecidableEq, Repr

/-- `TailoredData` (types/index.ts). -/
structure TailoredData where
  original : SectionTriple
  tailored : SectionTriple
  changes : ChangeLists
deriving DecidableEq, Repr

/-- `AcceptedChanges` (types/index.ts): one accept flag per tailorable
section. -/
structure AcceptedChanges where
  summary : Bool
  experience : Bool
  skills : Bool
deriving DecidableEq, Repr

/-- The three tailorable section keys (`keyof AcceptedChanges`). -/
inductive SectionKey where
  | summary
  | experience
  | skills
deriving DecidableEq, Repr

/-- Read the accept flag of one section (`prev[section]`). -/
def AcceptedChanges.get (ac : AcceptedChanges) : SectionKey → Bool
  | .summary => ac.summary
  | .experience => ac.experience
  | .skills => ac.skills

/-- The initial accepted-changes state: `useState<AcceptedChanges>({summary:
true, experience: true, skills: true})` in both App.tsx and
TailoredResumeView.tsx. -/
def initialAcceptedChanges : AcceptedChanges :=
  { summary := true, experience := true, skills := true }

/-- The initial local tailored data of TailoredResumeView.tsx:
`useState(tailoredData)`, i.e. the incoming tailoring result unchanged. -/
def initialLocalTailoredData (tailoredData : TailoredData) : TailoredData :=
  tailoredData

/-- `handleToggleChange` (App.tsx lines 45-50): spread the previous state and
flip the one named flag: `{...prev, [section]: !prev[section]}`. The inline
toggle of TailoredResumeView.tsx line 144 is the same update. -/
def handleToggleChange (sectionKey : SectionKey) (prev : AcceptedChanges) :
    AcceptedChanges :=
  match sectionKey with
  | .summary => { prev with summary := !prev.summary }
  | .experience => { prev with experience := !prev.experience }
  | .skills => { prev with skills := !prev.skills }

/-- `editMode` state of TailoredResumeView.tsx:
`{ section: string; index?: number }` (the `section` field is named
`sectionName` here because `section` is a Lean keyword). -/
structure EditMode where
  sectionName : String
  index : Option Nat
deriving DecidableEq, Repr

/-- `handleSaveEdit` (TailoredResumeView.tsx lines 44-60) as a function on the
local tailored data. The guard `if (!editMode) return;` is the `none` case;
the three `if/else if` branches compare `editMode.section` against the string
literals, the experience branch additionally requiring a defined index, and
write `editedContent` into the corresponding slot of `tailored`. A non-matching
`editMode` falls through every branch and leaves the content unchanged. The
experience assignment `newData.tailored.experience[editMode.index] =
editedContent` is `List.set` (the component only edits indices of rendered
bullets, which are in bounds). -/
def handleSaveEdit (editMode : Option EditMode) (editedContent : String)
    (d : TailoredData) : TailoredData :=
  match editMode with
  | none => d
  | some em =>
    if em.sectionName = "summary" then
      { d with tailored := { d.tailored with summary := editedContent } }
    else if em.sectionName = "experience" then
      match em.index with
      | some i =>
        { d with tailored :=
          { d.tailored with
            experience := d.tailored.experience.set i editedContent } }
      | none => d
    else if em.sectionName = "skills" then
      { d with tailored := { d.tailored with skills := editedContent } }
    else d

/-- The seven section kinds the spec's final section map speaks about. -/
inductive SectionKind where
  | contact
  | summary
  | experience
  | education
  | skills
  | certifications
  | projects
deriving DecidableEq, Repr

/-- A value stored under one key of the export payload: a string (summary,
skills), a bullet list (experience), a contact object, a parsed resume
section (education, certifications), or the empty object `{}` that
`resume?.field || {}` substitutes when the field is absent. -/
inductive SectionValue where
  | str : String → SectionValue
  | strList : List String → SectionValue
  | contactObj : Contact → SectionValue
  | resumeSec : ResumeSection → SectionValue
  | emptyObj : SectionValue
deriving DecidableEq, Repr

/-- `resume?.contact || {}` and the analogous defaults in `handleExport`. -/
def orEmptyContact (c : Option Contact) : SectionValue :=
  match c with
  | some c => .contactObj c
  | none => .emptyObj

/-- `resume?.education || {}` / `resume?.certifications || {}`. -/
def orEmptySection (s : Option ResumeSection) : SectionValue :=
  match s with
  | some s => .resumeSec s
  | none => .emptyObj

/-- The `originalSections` object literal built by `handleExport`
(App.tsx lines 59-66, TailoredResumeView.tsx lines 88-95): keys contact,
summary, experience, skills, education, certifications — and no key for
projects, hence `none` there. `resume` is optional in App.tsx
(`resume?.contact`). -/
def originalSections (resume : Option ParsedResume) (d : TailoredData) :
    SectionKind → Option SectionValue
  | .contact => some (orEmptyContact (resume.bind (·.contact)))
  | .summary => some (.str d.original.summary)
  | .experience => some (.strList d.original.experience)
  | .skills => some (.str d.original.skills)
  | .education => some (orEmptySection (resume.bind (·.education)))
  | .certifications => some (orEmptySection (resume.bind (·.certifications)))
  | .projects => none

/-- The `tailoredSections` object literal built by `handleExport`
(App.tsx lines 68-72, TailoredResumeView.tsx lines 97-101): only the three
tailorable keys. -/
def tailoredSections (d : TailoredData) : SectionKind → Option SectionValue
  | .summary => some (.str d.tailored.summary)
  | .experience => some (.strList d.tailored.experience)
  | .skills => some (.str d.tailored.skills)
  | _ => none

/-- Modelled from the spec: the merge performed by the backend docx exporter
(`backend/services/docx_exporter.py`, absent from the sources). The exporter
receives `original_sections`, `tailored_sections` and `accepted_changes`
(api.exportDocx) and, per the spec and README ("The exported file will only
include accepted changes"), renders each tailorable section from
`tailored_sections` when its accept flag is true and from `original_sections`
otherwise, and every other section from `original_sections`. -/
def mergeSections (orig tail : SectionKind → Option SectionValue)
    (ac : AcceptedChanges) : SectionKind → Option SectionValue
  | .summary => if ac.summary then tail .summary else orig .summary
  | .experience => if ac.experience then tail .experience else orig .experience
  | .skills => if ac.skills then tail .skills else orig .skills
  | k => orig k

/-- The final section map of one export: the payload `handleExport` assembles,
merged by the (spec-modelled) backend rule. -/
def finalSectionMap (resume : Option ParsedResume) (d : TailoredData)
    (ac : AcceptedChanges) : SectionKind → Option SectionValue :=
  mergeSections (originalSections resume d) (tailoredSections d) ac

/-- The `SectionKind` a tailorable `SectionKey` exports under. -/
def SectionKey.kind : SectionKey → SectionKind
  | .summary => .summary
  | .experience => .experience
  | .skills => .skills

/-- The component state `handleExport` reads: the parsed resume, the local
tailored data and the accepted-changes flags (TailoredResumeView.tsx). -/
structure ViewState where
  resume : Option ParsedResume
  localTailoredData : TailoredData
  acceptedChanges : AcceptedChanges
deriving DecidableEq, Repr

/-- One resolution pass of `handleExport`: build the export payload from the
component state and return the state the handler leaves behind — the handler
only reads `localTailoredData` and `acceptedChanges` (it writes only the
transient loading/error flags), so the state it leaves is the state it read. -/
def resolveAll (st : ViewState) :
    (SectionKind → Option SectionValue) × ViewState :=
  (finalSectionMap st.resume st.localTailoredData st.acceptedChanges, st)

/-- Modelled from the spec: case-insensitive normalization of a vocabulary
term, used by the anti-fabrication guard of the backend tailoring
orchestrator (`backend/services/resume_tailor.py`, absent from the sources). -/
def normalizeTerm (s : String) : String :=
  s.toLower

/-- Modelled from the spec: accumulate the content words of a lowercased
character stream, splitting at non-alphanumeric characters. -/
def wordsAux : List Char → List Char → List String
  | [], acc => if acc.isEmpty then [] else [String.mk acc.reverse]
  | c :: cs, acc =>
    if c.isAlphanum then wordsAux cs (c :: acc)
    else if acc.isEmpty then wordsAux cs []
    else String.mk acc.reverse :: wordsAux cs []

/-- Modelled from the spec: the normalized token set of a bullet — its
content words, lowercased. -/
def tokenizeBullet (s : String) : List String :=
  wordsAux s.toLower.toList []

/-- Modelled from the spec: a tailored bullet is allowed when every one of
its content words appears in the original bullet or in the requirements
vocabulary, case-insensitively. -/
def bulletAllowed (vocab : List String) (orig bullet : String) : Bool :=
  (tokenizeBullet bullet).all fun w =>
    (tokenizeBullet orig).contains w || (vocab.map normalizeTerm).contains w

/-- Modelled from the spec: the orchestrator's anti-fabrication guard over
tailored experience/skills bullets (`backend/services/resume_tailor.py`,
absent from the sources): each tailored bullet is kept when allowed and
otherwise replaced by the corresponding original bullet. -/
def antiFabricationGuard (vocab orig tailored : List String) : List String :=
  (orig.zip tailored).map fun p =>
    if bulletAllowed vocab p.1 p.2 then p.2 else p.1

/-- A concrete tailoring result used by witnesses and counterexamples. -/
def sampleTailoredData : TailoredData :=
  { original :=
      { summary := "Built internal tools."
        experience := ["Led migration project", "Wrote documentation"]
        skills := "Python, SQL" }
    tailored :=
      { summary := "Engineer who built internal tools."
        experience := ["Led the migration project end to end",
                       "Wrote documentation"]
        skills := "Python, SQL, leadership" }
    changes :=
      { summary := ["emphasized impact"]
        experience := ["highlighted the migration for the target role"]
        skills := ["surfaced leadership"] } }

/-- A concrete parsed resume whose projects section is present. -/
def sampleResume : ParsedResume :=
  { contact := some { name := some "John Doe",
                      email := some "john@example.com",
                      phone := none, linkedin := none }
    summary := some { content := "Built internal tools.", bullets := none }
    experience := some { content := "",
                         bullets := some ["Led migration project",
                                          "Wrote documentation"] }
    education := some { content := "BSc Computer Science", bullets := none }
    skills := some { content := "Python, SQL", bullets := none }
    certifications := none
    projects := some { content := "Personal site", bullets := none }
    raw_text := some "John Doe ..." }

/-- C1 (counterexample): saving the manual edit "Edited summary" on the
summary section and then rejecting the section (accepted = false) exports the
original summary, not the manual edit — the edit was saved into the state
(second conjunct) yet the export resolves to the original (first and third
conjuncts), so a manual override does not take precedence over rejection. -/
theorem c1_counterexample :
    finalSectionMap none
        (handleSaveEdit (some { sectionName := "summary", index := none })
          "Edited summary" sampleTailoredData)
        (handleToggleChange .summary initialAcceptedChanges) .summary
      = some (.str "Built internal tools.") ∧
    (handleSaveEdit (some { sectionName := "summary", index := none })
        "Edited summary" sampleTailoredData).tailored.summary
      = "Edited summary" ∧
    ("Built internal tools." : String) ≠ "Edited summary" := by
  refine ⟨rfl, rfl, by decide⟩

/-- C1 (amended): there is no separate user override — a manual edit is
folded into the tailored content — and the effective content used for export
is the tailored content (with any manual edits) if the section's accepted
flag is true, otherwise the original content; in particular a manual edit
surfaces only when the section is accepted. -/
theorem c1_amended (d : TailoredData) (ac : AcceptedChanges)
    (r : Option ParsedResume) (e : String) (i : Nat) :
    (finalSectionMap r
        (handleSaveEdit (some { sectionName := "summary", index := none }) e d)
        ac .summary
      = if ac.summary then some (.str e)
        else some (.str d.original.summary)) ∧
    (finalSectionMap r
        (handleSaveEdit (some { sectionName := "skills", index := none }) e d)
        ac .skills
      = if ac.skills then some (.str e)
        else some (.str d.original.skills)) ∧
    (finalSectionMap r
        (handleSaveEdit
          (some { sectionName := "experience", index := some i }) e d)
        ac .experience
      = if ac.experience
        then some (.strList (d.tailored.experience.set i e))
        else some (.strList d.original.experience)) := by
  obtain ⟨acs, ace, ack⟩ := ac
  refine ⟨?_, ?_, ?_⟩
  · cases acs <;> rfl
  · cases ack <;> rfl
  · cases ace <;> rfl

/-- C2 (counterexample): at a concrete export the final section map has no
entry at all for the projects kind, and the stand-in for the absent
certifications section is the empty object, which is neither an empty string
nor an empty sequence — the claim fails both in key coverage and in the
stand-in's shape. -/
theorem c2_counterexample :
    finalSectionMap (some sampleResume) sampleTailoredData
      initialAcceptedChanges .projects = none ∧
    finalSectionMap (some sampleResume) sampleTailoredData
      initialAcceptedChanges .certifications = some SectionValue.emptyObj ∧
    SectionValue.emptyObj ≠ SectionValue.str "" ∧
    SectionValue.emptyObj ≠ SectionValue.strList [] :=
  ⟨rfl, rfl, by decide, by decide⟩

/-- C2 (amended): for every input, the final merged section map contains the
six keys contact, summary, experience, education, skills and certifications
— each bound to a value — while the projects key is never present; a contact,
education or certifications section absent from the input resume is stood in
for by the empty object (not an empty string or empty sequence), and the
tailorable keys always carry values of the section's string/sequence shape. -/
theorem c2_amended (r : Option ParsedResume) (d : TailoredData)
    (ac : AcceptedChanges) :
    finalSectionMap r d ac .projects = none ∧
    finalSectionMap r d ac .contact
      = some (orEmptyContact (r.bind (·.contact))) ∧
    finalSectionMap r d ac .education
      = some (orEmptySection (r.bind (·.education))) ∧
    finalSectionMap r d ac .certifications
      = some (orEmptySection (r.bind (·.certifications))) ∧
    finalSectionMap r d ac .summary
      = some (.str
          (if ac.summary then d.tailored.summary else d.original.summary)) ∧
    finalSectionMap r d ac .experience
      = some (.strList
          (if ac.experience then d.tailored.experience
           else d.original.experience)) ∧
    finalSectionMap r d ac .skills
      = some (.str
          (if ac.skills then d.tailored.skills else d.original.skills)) ∧
    orEmptyContact none = SectionValue.emptyObj ∧
    orEmptySection none = SectionValue.emptyObj := by
  obtain ⟨acs, ace, ack⟩ := ac
  refine ⟨rfl, rfl, rfl, rfl, ?_, ?_, ?_, rfl, rfl⟩
  · cases acs <;> rfl
  · cases ace <;> rfl
  · cases ack <;> rfl

/-- C3: toggling the accepted flag of section A leaves both the accepted flag
of any other section B and the content B resolves to in the export unchanged. -/
theorem c3_toggle_frame (a b : SectionKey) (h : a ≠ b)
    (ac : AcceptedChanges) (r : Option ParsedResume) (d : TailoredData) :
    (handleToggleChange a ac).get b = ac.get b ∧
    finalSectionMap r d (handleToggleChange a ac) b.kind
      = finalSectionMap r d ac b.kind := by
  cases a <;> cases b <;> first
    | exact absurd rfl h
    | exact ⟨rfl, rfl⟩

/-- C3 (witness): toggling summary at a concrete state leaves the skills flag
and the exported skills content unchanged. -/
theorem c3_toggle_frame_witness :
    (handleToggleChange .summary initialAcceptedChanges).get .skills
      = initialAcceptedChanges.get .skills ∧
    finalSectionMap (some sampleResume) sampleTailoredData
        (handleToggleChange .summary initialAcceptedChanges)
        SectionKey.skills.kind
      = finalSectionMap (some sampleResume) sampleTailoredData
        initialAcceptedChanges SectionKey.skills.kind :=
  c3_toggle_frame .summary .skills (by decide) initialAcceptedChanges
    (some sampleResume) sampleTailoredData

/-- C4 (counterexample): the parsed resume's projects section, although
present, does not appear in the final section map at all — it is not passed
through unchanged. -/
theorem c4_counterexample :
    finalSectionMap (some sampleResume) sampleTailoredData
      initialAcceptedChanges .projects = none ∧
    sampleResume.projects ≠ none :=
  ⟨rfl, by decide⟩

/-- C4 (amended): in the export merge, contact, education and certifications
pass through from the export payload's original sections (the parsed resume's
field, or the empty object when absent), projects is dropped entirely, and
each tailorable section resolves to the tailored payload entry when accepted
and to the original payload entry otherwise. -/
theorem c4_amended (r : Option ParsedResume) (d : TailoredData)
    (ac : AcceptedChanges) :
    (finalSectionMap r d ac .contact = originalSections r d .contact ∧
     finalSectionMap r d ac .education = originalSections r d .education ∧
     finalSectionMap r d ac .certifications
       = originalSections r d .certifications) ∧
    (originalSections r d .contact
       = some (orEmptyContact (r.bind (·.contact))) ∧
     originalSections r d .education
       = some (orEmptySection (r.bind (·.education))) ∧
     originalSections r d .certifications
       = some (orEmptySection (r.bind (·.certifications)))) ∧
    finalSectionMap r d ac .projects = none ∧
    ∀ s : SectionKey, finalSectionMap r d ac s.kind
      = if ac.get s then tailoredSections d s.kind
        else originalSections r d s.kind := by
  refine ⟨⟨rfl, rfl, rfl⟩, ⟨rfl, rfl, rfl⟩, rfl, ?_⟩
  intro s
  cases s <;> rfl

/-- C5: every bullet surfaced by the (spec-modelled) anti-fabrication guard
only uses content words found in the corresponding original bullet or in the
requirements vocabulary (case-insensitive), and a tailored bullet that
violates this is replaced by the corresponding original bullet. -/
theorem c5_anti_fabrication (vocab orig tailored : List String) (i : Nat)
    (hg : i < (antiFabricationGuard vocab orig tailored).length)
    (ho : i < orig.length) (ht : i < tailored.length) :
    (∀ w ∈ tokenizeBullet
        ((antiFabricationGuard vocab orig tailored).get ⟨i, hg⟩),
      w ∈ tokenizeBullet (orig.get ⟨i, ho⟩) ∨ w ∈ vocab.map normalizeTerm) ∧
    (bulletAllowed vocab (orig.get ⟨i, ho⟩) (tailored.get ⟨i, ht⟩) = false →
      (antiFabricationGuard vocab orig tailored).get ⟨i, hg⟩
        = orig.get ⟨i, ho⟩) := by
  have hzip : i < (orig.zip tailored).length := by
    simpa [List.length_zip] using Nat.lt_min.mpr ⟨ho, ht⟩
  have hget : (antiFabricationGuard vocab orig tailored).get ⟨i, hg⟩
      = if bulletAllowed vocab (orig.get ⟨i, ho⟩) (tailored.get ⟨i, ht⟩)
        then tailored.get ⟨i, ht⟩ else orig.get ⟨i, ho⟩ := by
    simp [antiFabricationGuard, List.get_eq_getElem, List.getElem_map,
      List.getElem_zip]
  by_cases hb : bulletAllowed vocab (orig.get ⟨i, ho⟩)
      (tailored.get ⟨i, ht⟩) = true
  · constructor
    · intro w hw
      rw [hget, if_pos hb] at hw
      have := (List.all_eq_true.mp hb) w hw
      rcases Bool.or_eq_true_iff.mp this with hmem | hmem
      · exact Or.inl (List.elem_iff.mp hmem)
      · exact Or.inr (List.elem_iff.mp hmem)
    · intro hfalse
      rw [hb] at hfalse
      exact absurd hfalse (by decide)
  · have hb2 : bulletAllowed vocab (orig.get ⟨i, ho⟩)
        (tailored.get ⟨i, ht⟩) = false := by
      revert hb
      cases bulletAllowed vocab (orig.get ⟨i, ho⟩) (tailored.get ⟨i, ht⟩) <;>
        simp
    constructor
    · intro w hw
      rw [hget, if_neg hb] at hw
      exact Or.inl hw
    · intro _
      rw [hget, if_neg hb]

/-- C5 (witness): on a concrete tailoring result the guard's output bullet 0
draws every word from the original bullet or the vocabulary, and a violating
bullet is sent back to the original. -/
theorem c5_anti_fabrication_witness :
    (∀ w ∈ tokenizeBullet
        ((antiFabricationGuard ["migration", "Leadership"]
            ["Led the project"] ["Led the migration"]).get ⟨0, by decide⟩),
      w ∈ tokenizeBullet (["Led the project"].get ⟨0, by decide⟩) ∨
        w ∈ (["migration", "Leadership"] : List String).map normalizeTerm) ∧
    (bulletAllowed ["migration", "Leadership"]
        (["Led the project"].get ⟨0, by decide⟩)
        (["Led the migration"].get ⟨0, by decide⟩) = false →
      (antiFabricationGuard ["migration", "Leadership"]
          ["Led the project"] ["Led the migration"]).get ⟨0, by decide⟩
        = ["Led the project"].get ⟨0, by decide⟩) :=
  c5_anti_fabrication ["migration", "Leadership"] ["Led the project"]
    ["Led the migration"] 0 (by decide) (by decide) (by decide)

/-- C6: when a tailoring result first arrives, every tailorable section's
accept flag starts true, the local tailored data is exactly the arriving
result (no override has been applied), and consequently every tailorable
section initially resolves to its tailored content. -/
theorem c6_initial_state (td : TailoredData) (r : Option ParsedResume)
    (s : SectionKey) :
    initialAcceptedChanges.get s = true ∧
    initialLocalTailoredData td = td ∧
    finalSectionMap r (initialLocalTailoredData td) initialAcceptedChanges
        s.kind
      = tailoredSections td s.kind := by
  refine ⟨?_, rfl, ?_⟩ <;> cases s <;> rfl

/-- C7: the one shape-mismatched override expressible through the editing
interface — a single-string edit aimed at the sequence-shaped experience
section with no bullet index — is refused: `handleSaveEdit` falls through all
branches (the experience branch requires a defined index) and the prior
tailored data is retained unchanged. -/
theorem c7_shape_mismatch_refused (e : String) (d : TailoredData) :
    handleSaveEdit (some { sectionName := "experience", index := none }) e d
      = d := by
  rfl

/-- C8: resolving the export payload twice from the same component state
yields identical section maps, and the resolution pass leaves the state
unchanged — resolution is a pure, mutation-free read. -/
theorem c8_resolution_idempotent (st : ViewState) :
    (resolveAll st).1 = (resolveAll (resolveAll st).2).1 ∧
    (resolveAll st).2 = st :=
  ⟨rfl, rfl⟩

/-- C9: toggling a section's accepted flag twice returns the accepted-changes
state to exactly its initial value. -/
theorem c9_toggle_involution (s : SectionKey) (ac : AcceptedChanges) :
    handleToggleChange s (handleToggleChange s ac) = ac := by
  cases s <;> cases ac <;> simp [handleToggleChange]

/-- C10: saving a manual edit to experience bullet i rewrites exactly that
tailored bullet: the list keeps its length, bullet i becomes the edited
content, every other tailored bullet is unchanged, and the tailored summary
and skills, all original contents and all change-rationale lists are
untouched (the accept flags live in separate state the save handler never
writes). -/
theorem c10_save_edit_frame (d : TailoredData) (i : Nat) (e : String)
    (hi : i < d.tailored.experience.length) :
    let d2 := handleSaveEdit
      (some { sectionName := "experience", index := some i }) e d
    d2.original = d.original ∧
    d2.changes = d.changes ∧
    d2.tailored.summary = d.tailored.summary ∧
    d2.tailored.skills = d.tailored.skills ∧
    d2.tailored.experience.length = d.tailored.experience.length ∧
    d2.tailored.experience[i]? = some e ∧
    ∀ j, j ≠ i →
      d2.tailored.experience[j]? = d.tailored.experience[j]? := by
  intro d2
  have hd2 : d2.tailored.experience = d.tailored.experience.set i e := rfl
  refine ⟨rfl, rfl, rfl, rfl, ?_, ?_, ?_⟩
  · rw [hd2, List.length_set]
  · rw [hd2]
    simp [List.getElem?_set_self, hi]
  · intro j hj
    rw [hd2]
    exact List.getElem?_set_ne (fun hij => hj hij.symm)

/-- C10 (witness): editing bullet 0 of a concrete tailoring result. -/
theorem c10_save_edit_frame_witness :
    (0 < sampleTailoredData.tailored.experience.length) ∧
    (let d2 := handleSaveEdit
      (some { sectionName := "experience", index := some 0 })
      "Drove the migration" sampleTailoredData
    d2.original = sampleTailoredData.original ∧
    d2.changes = sampleTailoredData.changes ∧
    d2.tailored.summary = sampleTailoredData.tailored.summary ∧
    d2.tailored.skills = sampleTailoredData.tailored.skills ∧
    d2.tailored.experience.length
      = sampleTailoredData.tailored.experience.length ∧
    d2.tailored.experience[0]? = some "Drove the migration" ∧
    ∀ j, j ≠ 0 →
      d2.tailored.experience[j]?
        = sampleTailoredData.tailored.experience[j]?) :=
  ⟨by decide,
    c10_save_edit_frame sampleTailoredData 0 "Drove the migration"
      (by decide)⟩

end ResumeBuilder
